import Mathlib

/-!
Verification of the JSON-to-XLS converter script `generate_xls.py`.

The script reads a JSON document, extracts its `rows` field (a sequence of
rows, each a sequence of cell values), writes every cell as a string into a
single sheet named "Sheet1" of a fresh workbook, saves the workbook, and
reports the row count.  Errors (read, parse, write) propagate to a top-level
handler that prints `Error: <message>` and exits with status 1; empty row
data is reported directly and also exits with status 1.

The embedding below models the parsed JSON value space, Python truthiness,
`dict.get`, iteration (`enumerate`), `len`, and `str`, and then the two
functions of the script: `generate_xls` and the `__main__` block
(`script_main`).  File-system effects are made explicit: the result of
reading and parsing the input file is a parameter (`ReadParse`), the
possibility of a save failure is a parameter (`saveErr`), and the produced
output file, stdout, stderr and exit status are fields of the result.
-/

/-- A parsed JSON value.  JSON numbers are modelled as integers; the claims
under verification do not depend on floating-point formatting, which the
spec leaves open. -/
inductive JsonValue where
  | null
  | bool (b : Bool)
  | num (n : Int)
  | str (s : String)
  | arr (elems : List JsonValue)
  | obj (fields : List (String × JsonValue))
deriving Repr

/-- Python truthiness (`if not rows:`): `None`, `False`, `0`, the empty
string, the empty list and the empty dict are falsy; everything else is
truthy. -/
def pyTruthy : JsonValue → Bool
  | .null => false
  | .bool b => b
  | .num n => n != 0
  | .str s => s != ""
  | .arr xs => !xs.isEmpty
  | .obj fs => !fs.isEmpty

/-- First binding of a key in an association list of object fields. -/
def lookupField : List (String × JsonValue) → String → Option JsonValue
  | [], _ => none
  | (k, v) :: fs, key => if k = key then some v else lookupField fs key

/-- Python `data.get(key, default)`: defined for dicts, an `AttributeError`
for any other value. -/
def pyGet (data : JsonValue) (key : String) (dflt : JsonValue) :
    Except String JsonValue :=
  match data with
  | .obj fields => .ok ((lookupField fields key).getD dflt)
  | _ => .error "AttributeError: object has no attribute get"

/-- Python iteration as used by `enumerate`: lists yield their elements,
strings yield their characters as one-character strings, dicts yield their
keys; other values raise `TypeError`. -/
def pyIter : JsonValue → Except String (List JsonValue)
  | .arr xs => .ok xs
  | .str s => .ok (s.data.map fun c => .str (String.mk [c]))
  | .obj fs => .ok (fs.map fun p => .str p.1)
  | _ => .error "TypeError: object is not iterable"

/-- Python `len`: defined for sized values, `TypeError` otherwise. -/
def pyLen : JsonValue → Except String Nat
  | .arr xs => .ok xs.length
  | .str s => .ok s.length
  | .obj fs => .ok fs.length
  | _ => .error "TypeError: object has no len"

/-- Python `repr`, used by `str` on containers. -/
def pyRepr : JsonValue → String
  | .null => "None"
  | .bool true => "True"
  | .bool false => "False"
  | .num n => toString n
  | .str s => "'" ++ s ++ "'"
  | .arr xs => "[" ++ String.intercalate ", " (xs.attach.map fun x => pyRepr x.1) ++ "]"
  | .obj fs =>
      "\x7b" ++
        String.intercalate ", "
          (fs.attach.map fun p => "'" ++ p.1.1 ++ "': " ++ pyRepr p.1.2) ++ "\x7d"
decreasing_by
  · simp only [JsonValue.arr.sizeOf_spec]
    have h := List.sizeOf_lt_of_mem x.2
    omega
  · simp only [JsonValue.obj.sizeOf_spec]
    have h := List.sizeOf_lt_of_mem p.2
    have h2 : sizeOf p.1.2 < sizeOf p.1 := by
      obtain ⟨a, b⟩ := p.1
      simp
    omega

/-- Python `str` on a JSON scalar or container: strings pass through
unchanged, other values take their `repr` form. -/
def pyStr : JsonValue → String
  | .str s => s
  | v => pyRepr v

/-- The per-cell conversion of the script: `None` becomes the empty string,
every other value becomes `str(cell_value)`. -/
def cellToString : JsonValue → String
  | .null => ""
  | v => pyStr v

/-- One `sheet.write(row_idx, col_idx, value)` call. -/
structure CellWrite where
  row : Nat
  col : Nat
  value : String
deriving Repr, DecidableEq

/-- The workbook produced by a run: the single sheet's name and the cell
writes it received, in the order they were issued. -/
structure Workbook where
  sheetName : String
  writes : List CellWrite
deriving Repr, DecidableEq

/-- The inner loop of `generate_xls` for one row:
`for col_idx, cell_value in enumerate(row): ... sheet.write(...)`. -/
def rowWrites (r : Nat) (cells : List JsonValue) : List CellWrite :=
  (List.enum cells).map fun p => ⟨r, p.1, cellToString p.2⟩

/-- The outer loop of `generate_xls` over the enumerated rows; iterating a
non-iterable row raises, aborting the loop at that row. -/
def writeSheet : List (Nat × JsonValue) → Except String (List CellWrite)
  | [] => .ok []
  | (r, rowVal) :: rest =>
    match pyIter rowVal with
    | .error msg => .error msg
    | .ok cells =>
      match writeSheet rest with
      | .error msg => .error msg
      | .ok ws => .ok (rowWrites r cells ++ ws)

/-- The outcome of reading and parsing the input file (`open` +
`json.load`). -/
inductive ReadParse where
  | ok (doc : JsonValue)
  | readError (msg : String)
  | parseError (msg : String)
deriving Repr

/-- What a call to `generate_xls` does: raise an exception, exit the
process via `sys.exit(1)` after printing to stderr, or succeed having
saved the workbook and printed the row-count message. -/
inductive GenOutcome where
  | raised (msg : String)
  | exited (code : Nat) (stderrMsg : String)
  | ok (file : Workbook) (stdoutMsg : String)
deriving Repr, DecidableEq

/-- `generate_xls(input_json_path, output_xls_path)`.  The read/parse
result and the possibility of a `workbook.save` failure are explicit
parameters; everything else follows the source line by line. -/
def generate_xls (input : ReadParse) (saveErr : Option String) : GenOutcome :=
  match input with
  | .readError msg => .raised msg
  | .parseError msg => .raised msg
  | .ok data =>
    match pyGet data "rows" (.arr []) with
    | .error msg => .raised msg
    | .ok rows =>
      if pyTruthy rows then
        match pyIter rows with
        | .error msg => .raised msg
        | .ok outer =>
          match writeSheet (List.enum outer) with
          | .error msg => .raised msg
          | .ok ws =>
            match saveErr with
            | some msg => .raised msg
            | none =>
              match pyLen rows with
              | .error msg => .raised msg
              | .ok n =>
                  .ok ⟨"Sheet1", ws⟩
                    ("Generated XLS with " ++ toString n ++ " rows")
      else
        .exited 1 "Error: No rows in input data"

/-- The observable result of one process run. -/
structure RunOutcome where
  exitCode : Nat
  stdout : List String
  stderr : List String
  outputFile : Option Workbook
  inputRead : Bool
deriving Repr, DecidableEq

/-- The `__main__` block: argument check, then `generate_xls` inside
`try/except Exception`.  `sys.exit` inside `generate_xls` is a
`SystemExit` and is not caught by the handler. -/
def script_main (argv : List String) (input : ReadParse)
    (saveErr : Option String) : RunOutcome :=
  if argv.length ≠ 3 then
    ⟨1, [], ["Usage: " ++ argv.headD "" ++ " <input_json> <output_xls>"],
      none, false⟩
  else
    match generate_xls input saveErr with
    | .raised msg => ⟨1, [], ["Error: " ++ msg], none, true⟩
    | .exited code msg => ⟨code, [], [msg], none, true⟩
    | .ok wb out => ⟨0, [out], [], some wb, true⟩

/-- Reading a cell of the produced sheet: the write addressed to `(r, c)`,
if any (the loop never writes one address twice). -/
def cellAt (wb : Workbook) (r c : Nat) : Option String :=
  (wb.writes.find? fun w => w.row == r && w.col == c).map CellWrite.value

/-- The input document built from a list of rows, as the script expects
it: an object whose `rows` field is an array of arrays. -/
def mkDoc (rows : List (List JsonValue)) : JsonValue :=
  .obj [("rows", .arr (rows.map .arr))]

/-- Row-major flattening of the rows into cell writes: the sheet contents
a successful run produces. -/
def rowMajor (rows : List (List JsonValue)) : List CellWrite :=
  ((List.enum rows).map fun p => rowWrites p.1 p.2).flatten

/-- A well-formed command line for the script. -/
def goodArgv : List String := ["generate_xls.py", "in.json", "out.xls"]

/-! ### Evaluation lemmas -/

lemma writeSheet_enumFrom_arr (rows : List (List JsonValue)) :
    ∀ k, writeSheet (List.enumFrom k (rows.map JsonValue.arr)) =
      .ok (((List.enumFrom k rows).map fun p => rowWrites p.1 p.2).flatten) := by
  induction rows with
  | nil => intro k; rfl
  | cons r rs ih =>
      intro k
      simp only [List.map_cons, List.enumFrom_cons, writeSheet, pyIter,
        ih (k + 1), List.flatten_cons]

lemma generate_xls_mkDoc (rows : List (List JsonValue)) (h : rows ≠ []) :
    generate_xls (.ok (mkDoc rows)) none =
      .ok ⟨"Sheet1", rowMajor rows⟩
        ("Generated XLS with " ++ toString rows.length ++ " rows") := by
  cases rows with
  | nil => exact absurd rfl h
  | cons r rs =>
      show generate_xls
        (.ok (.obj [("rows", .arr ((r :: rs).map JsonValue.arr))])) none = _
      simp [generate_xls, pyGet, lookupField, pyTruthy, pyIter, pyLen,
        List.enum, writeSheet, writeSheet_enumFrom_arr rs 1, rowMajor]

lemma script_main_mkDoc (rows : List (List JsonValue)) (h : rows ≠ []) :
    script_main goodArgv (.ok (mkDoc rows)) none =
      ⟨0, ["Generated XLS with " ++ toString rows.length ++ " rows"], [],
        some ⟨"Sheet1", rowMajor rows⟩, true⟩ := by
  simp [script_main, goodArgv, generate_xls_mkDoc rows h]

lemma find_cons_false {α : Type} {p : α → Bool} {a : α} {l : List α}
    (h : p a = false) : List.find? p (a :: l) = List.find? p l := by
  simp [List.find?, h]

lemma find_map_enumFrom_cells (r : Nat) (cells : List JsonValue) :
    ∀ j c, ∀ _ : c < cells.length,
      List.find? (fun w => w.row == r && w.col == (j + c))
        ((List.enumFrom j cells).map
          fun p => (⟨r, p.1, cellToString p.2⟩ : CellWrite)) =
      some ⟨r, j + c, cellToString cells[c]⟩ := by
  induction cells with
  | nil => intro j c hc; exact absurd hc (by simp)
  | cons x xs ih =>
      intro j c hc
      cases c with
      | zero =>
          rw [List.enumFrom_cons, List.map_cons]
          simp [List.find?_cons]
      | succ d =>
          rw [List.enumFrom_cons, List.map_cons,
            find_cons_false (by simp)]
          have harith : j + (d + 1) = (j + 1) + d := by omega
          simp only [harith, List.getElem_cons_succ]
          exact ih (j + 1) d (by simpa using hc)

lemma rowWrites_row_eq (r : Nat) (cells : List JsonValue) (w : CellWrite)
    (hw : w ∈ rowWrites r cells) : w.row = r := by
  unfold rowWrites at hw
  obtain ⟨p, _, rfl⟩ := List.mem_map.mp hw
  rfl

lemma find_rowMajor (rows : List (List JsonValue)) :
    ∀ k i c, ∀ hi : i < rows.length, ∀ _ : c < rows[i].length,
      List.find? (fun w => w.row == (k + i) && w.col == c)
        (((List.enumFrom k rows).map fun p => rowWrites p.1 p.2).flatten) =
      some ⟨k + i, c, cellToString rows[i][c]⟩ := by
  induction rows with
  | nil => intro k i c hi; exact absurd hi (by simp)
  | cons r rs ih =>
      intro k i c hi hc
      rw [List.enumFrom_cons, List.map_cons, List.flatten_cons,
        List.find?_append]
      cases i with
      | zero =>
          have h1 :
              List.find? (fun w => w.row == (k + 0) && w.col == c)
                (rowWrites k r) = some ⟨k, c, cellToString r[c]⟩ := by
            have := find_map_enumFrom_cells k r 0 c (by simpa using hc)
            simpa [rowWrites, List.enum] using this
          simp only [h1]
          simp
      | succ i' =>
          have h0 :
              List.find? (fun w => w.row == (k + (i' + 1)) && w.col == c)
                (rowWrites k r) = none := by
            rw [List.find?_eq_none]
            intro w hw
            have hr := rowWrites_row_eq k r w hw
            simp only [hr, Bool.and_eq_true, beq_iff_eq, not_and]
            omega
          rw [h0]
          have harith : k + (i' + 1) = (k + 1) + i' := by omega
          simp only [Option.none_or, harith]
          simpa using ih (k + 1) i' c (by simpa using hi) (by simpa using hc)

lemma cellAt_rowMajor (rows : List (List JsonValue))
    (i c : Nat) (hi : i < rows.length) (hc : c < rows[i].length) :
    cellAt ⟨"Sheet1", rowMajor rows⟩ i c = some (cellToString rows[i][c]) := by
  have h := find_rowMajor rows 0 i c hi hc
  simp only [Nat.zero_add] at h
  unfold cellAt
  have hw : (⟨"Sheet1", rowMajor rows⟩ : Workbook).writes =
      ((List.enumFrom 0 rows).map fun p => rowWrites p.1 p.2).flatten := rfl
  rw [hw, h]
  rfl

lemma mem_rowWrites (r : Nat) (cells : List JsonValue) (w : CellWrite) :
    w ∈ rowWrites r cells ↔
      ∃ c, ∃ _ : c < cells.length, w = ⟨r, c, cellToString cells[c]⟩ := by
  unfold rowWrites
  rw [List.mem_map]
  constructor
  · rintro ⟨⟨c, v⟩, hp, rfl⟩
    rw [List.mk_mem_enum_iff_getElem?] at hp
    obtain ⟨hlt, hv⟩ := List.getElem?_eq_some.mp hp
    subst hv
    exact ⟨c, hlt, rfl⟩
  · rintro ⟨c, hlt, rfl⟩
    refine ⟨(c, cells[c]), ?_, rfl⟩
    rw [List.mk_mem_enum_iff_getElem?]
    exact List.getElem?_eq_some.mpr ⟨hlt, rfl⟩

lemma mem_rowMajor (rows : List (List JsonValue)) (w : CellWrite) :
    w ∈ rowMajor rows ↔
      ∃ i, ∃ _ : i < rows.length, ∃ c, ∃ _ : c < rows[i].length,
        w = ⟨i, c, cellToString rows[i][c]⟩ := by
  unfold rowMajor
  rw [List.mem_flatten]
  constructor
  · rintro ⟨chunk, hchunk, hw⟩
    obtain ⟨⟨i, rowv⟩, hp, rfl⟩ := List.mem_map.mp hchunk
    rw [List.mk_mem_enum_iff_getElem?] at hp
    obtain ⟨hi, hv⟩ := List.getElem?_eq_some.mp hp
    subst hv
    obtain ⟨c, hc, rfl⟩ := (mem_rowWrites _ _ _).mp hw
    exact ⟨i, hi, c, hc, rfl⟩
  · rintro ⟨i, hi, c, hc, rfl⟩
    refine ⟨rowWrites i rows[i], ?_, ?_⟩
    · exact List.mem_map.mpr ⟨(i, rows[i]),
        List.mk_mem_enum_iff_getElem?.mpr
          (List.getElem?_eq_some.mpr ⟨hi, rfl⟩), rfl⟩
    · exact (mem_rowWrites _ _ _).mpr ⟨c, hc, rfl⟩

lemma rowMajor_all_nil (rows : List (List JsonValue))
    (hall : ∀ r ∈ rows, r = []) : rowMajor rows = [] := by
  unfold rowMajor
  rw [List.flatten_eq_nil_iff]
  intro l hl
  obtain ⟨⟨i, rowv⟩, hp, rfl⟩ := List.mem_map.mp hl
  rw [List.mk_mem_enum_iff_getElem?] at hp
  obtain ⟨hi, hv⟩ := List.getElem?_eq_some.mp hp
  subst hv
  rw [hall _ (List.getElem_mem hi)]
  rfl

/-! ### Claims -/

/-- C4: for every input file whose content is not valid JSON, the run exits
with status 1, prints `Error: <message>` on standard error, and produces no
output file at all. -/
theorem parse_error_no_output (msg : String) (saveErr : Option String) :
    script_main goodArgv (.parseError msg) saveErr =
      ⟨1, [], ["Error: " ++ msg], none, true⟩ := by
  rfl

/-- C7: every exception raised during conversion (read, parse or write) is
caught at the top level, reported as the single stderr line
`Error: <message>`, and terminates the process with the non-zero status 1;
no output file is recorded and no retry happens. -/
theorem raised_caught_top_level (input : ReadParse) (saveErr : Option String)
    (msg : String) (h : generate_xls input saveErr = .raised msg) :
    script_main goodArgv input saveErr =
      ⟨1, [], ["Error: " ++ msg], none, true⟩ := by
  simp [script_main, goodArgv, h]

theorem raised_caught_top_level_witness :
    generate_xls (.readError "boom") none = .raised "boom" ∧
    script_main goodArgv (.readError "boom") none =
      ⟨1, [], ["Error: boom"], none, true⟩ :=
  ⟨rfl, raised_caught_top_level (.readError "boom") none "boom" rfl⟩

/-- C8: any command line without exactly two positional arguments yields a
usage message on stderr and exit status 1, with the input never read and no
output produced. -/
theorem wrong_arg_count_usage (argv : List String) (input : ReadParse)
    (saveErr : Option String) (h : argv.length ≠ 3) :
    script_main argv input saveErr =
      ⟨1, [], ["Usage: " ++ argv.headD "" ++ " <input_json> <output_xls>"],
        none, false⟩ := by
  simp [script_main, h]

theorem wrong_arg_count_usage_witness :
    (["generate_xls.py"] : List String).length ≠ 3 ∧
    script_main ["generate_xls.py"] (.ok (mkDoc [[]])) none =
      ⟨1, [], ["Usage: generate_xls.py <input_json> <output_xls>"],
        none, false⟩ :=
  ⟨by decide, wrong_arg_count_usage ["generate_xls.py"]
    (.ok (mkDoc [[]])) none (by decide)⟩

/-- C2: if the `rows` field is absent or is the empty list, the run exits
with status 1 after printing an error to stderr and writes no output file;
a missing key yields exactly the same outcome as the empty list. -/
theorem empty_or_missing_rows_fails (fields : List (String × JsonValue))
    (saveErr : Option String)
    (h : lookupField fields "rows" = none ∨
         lookupField fields "rows" = some (.arr [])) :
    script_main goodArgv (.ok (.obj fields)) saveErr =
      ⟨1, [], ["Error: No rows in input data"], none, true⟩ := by
  have hgen : generate_xls (.ok (.obj fields)) saveErr =
      .exited 1 "Error: No rows in input data" := by
    show (match pyGet (.obj fields) "rows" (.arr []) with
      | .error msg => GenOutcome.raised msg
      | .ok rows =>
        if pyTruthy rows then
          match pyIter rows with
          | .error msg => GenOutcome.raised msg
          | .ok outer =>
            match writeSheet (List.enum outer) with
            | .error msg => GenOutcome.raised msg
            | .ok ws =>
              match saveErr with
              | some msg => GenOutcome.raised msg
              | none =>
                match pyLen rows with
                | .error msg => GenOutcome.raised msg
                | .ok n =>
                    GenOutcome.ok ⟨"Sheet1", ws⟩
                      ("Generated XLS with " ++ toString n ++ " rows")
        else
          GenOutcome.exited 1 "Error: No rows in input data") = _
    rcases h with h | h <;> simp [pyGet, h, pyTruthy]
  simp [script_main, goodArgv, hgen]

theorem empty_or_missing_rows_fails_witness :
    (lookupField [] "rows" = none ∨
      lookupField [] "rows" = some (.arr [])) ∧
    script_main goodArgv (.ok (.obj [])) none =
      ⟨1, [], ["Error: No rows in input data"], none, true⟩ :=
  ⟨Or.inl rfl, empty_or_missing_rows_fails [] none (Or.inl rfl)⟩

/-- C9: a falsy non-list `rows` value (null, false, 0, the empty string, or
the empty object) behaves exactly like the empty-rows case: same exit
status 1, same stderr message, no output file, and no type error. -/
theorem falsy_rows_like_empty (v : JsonValue) (saveErr : Option String)
    (h : v = .null ∨ v = .bool false ∨ v = .num 0 ∨ v = .str "" ∨
         v = .obj []) :
    script_main goodArgv (.ok (.obj [("rows", v)])) saveErr =
      script_main goodArgv (.ok (.obj [("rows", .arr [])])) saveErr ∧
    script_main goodArgv (.ok (.obj [("rows", v)])) saveErr =
      ⟨1, [], ["Error: No rows in input data"], none, true⟩ := by
  rcases h with rfl | rfl | rfl | rfl | rfl <;> exact ⟨rfl, rfl⟩

theorem falsy_rows_like_empty_witness :
    (JsonValue.null = .null ∨ JsonValue.null = .bool false ∨
      JsonValue.null = .num 0 ∨ JsonValue.null = .str "" ∨
      JsonValue.null = .obj []) ∧
    (script_main goodArgv (.ok (.obj [("rows", .null)])) none =
      script_main goodArgv (.ok (.obj [("rows", .arr [])])) none ∧
    script_main goodArgv (.ok (.obj [("rows", .null)])) none =
      ⟨1, [], ["Error: No rows in input data"], none, true⟩) :=
  ⟨Or.inl rfl, falsy_rows_like_empty .null none (Or.inl rfl)⟩

/-- C1: for a valid document with non-empty `rows`, the run succeeds and
the cell at any existing zero-based position (i, c) equals the string form
of `rows[i][c]` (null normalized to the empty string); the sheet's writes
are exactly the row-major flattening of the input, in original order. -/
theorem cells_written_row_major (rows : List (List JsonValue))
    (h : rows ≠ []) (i c : Nat) (hi : i < rows.length)
    (hc : c < rows[i].length) :
    script_main goodArgv (.ok (mkDoc rows)) none =
      ⟨0, ["Generated XLS with " ++ toString rows.length ++ " rows"], [],
        some ⟨"Sheet1", rowMajor rows⟩, true⟩ ∧
    cellAt ⟨"Sheet1", rowMajor rows⟩ i c =
      some (cellToString rows[i][c]) ∧
    cellToString JsonValue.null = "" :=
  ⟨script_main_mkDoc rows h, cellAt_rowMajor rows i c hi hc, rfl⟩

theorem cells_written_row_major_witness :
    ([[JsonValue.str "ab", JsonValue.null], [JsonValue.num 7]] ≠
      ([] : List (List JsonValue))) ∧
    1 < ([[JsonValue.str "ab", JsonValue.null],
      [JsonValue.num 7]] : List (List JsonValue)).length ∧
    0 < ([[JsonValue.str "ab", JsonValue.null],
      [JsonValue.num 7]] : List (List JsonValue))[1].length ∧
    (script_main goodArgv
        (.ok (mkDoc [[JsonValue.str "ab", JsonValue.null],
          [JsonValue.num 7]])) none =
      ⟨0, ["Generated XLS with " ++
          toString ([[JsonValue.str "ab", JsonValue.null],
            [JsonValue.num 7]] : List (List JsonValue)).length ++ " rows"],
        [], some ⟨"Sheet1", rowMajor [[JsonValue.str "ab", JsonValue.null],
          [JsonValue.num 7]]⟩, true⟩ ∧
    cellAt ⟨"Sheet1", rowMajor [[JsonValue.str "ab", JsonValue.null],
        [JsonValue.num 7]]⟩ 1 0 =
      some (cellToString ([[JsonValue.str "ab", JsonValue.null],
        [JsonValue.num 7]] : List (List JsonValue))[1][0]) ∧
    cellToString JsonValue.null = "") :=
  ⟨by simp, by decide, by decide,
    cells_written_row_major [[JsonValue.str "ab", JsonValue.null],
      [JsonValue.num 7]] (by simp) 1 0 (by decide) (by decide)⟩

/-- C3: every successful run prints exactly the row-count message naming
`len(rows)` on standard output and terminates with exit status zero. -/
theorem success_row_count (rows : List (List JsonValue)) (h : rows ≠ []) :
    (script_main goodArgv (.ok (mkDoc rows)) none).stdout =
      ["Generated XLS with " ++ toString rows.length ++ " rows"] ∧
    (script_main goodArgv (.ok (mkDoc rows)) none).exitCode = 0 := by
  rw [script_main_mkDoc rows h]
  exact ⟨rfl, rfl⟩

theorem success_row_count_witness :
    ([[JsonValue.num 1], [JsonValue.num 2], [JsonValue.num 3]] ≠
      ([] : List (List JsonValue))) ∧
    ((script_main goodArgv
        (.ok (mkDoc [[JsonValue.num 1], [JsonValue.num 2],
          [JsonValue.num 3]])) none).stdout =
      ["Generated XLS with 3 rows"] ∧
    (script_main goodArgv
        (.ok (mkDoc [[JsonValue.num 1], [JsonValue.num 2],
          [JsonValue.num 3]])) none).exitCode = 0) :=
  ⟨by simp, success_row_count [[JsonValue.num 1], [JsonValue.num 2],
    [JsonValue.num 3]] (by simp)⟩

/-- C5: a string cell is written to the output unchanged, whatever its
length: the stored value is the full string and its length is preserved,
so there is no truncation and no short length cap; in particular strings
of 32767 characters are supported (see the witness). -/
theorem string_cells_pass_through (rows : List (List JsonValue))
    (i c : Nat) (hi : i < rows.length) (hc : c < rows[i].length)
    (s : String) (hs : rows[i][c] = .str s) :
    script_main goodArgv (.ok (mkDoc rows)) none =
      ⟨0, ["Generated XLS with " ++ toString rows.length ++ " rows"], [],
        some ⟨"Sheet1", rowMajor rows⟩, true⟩ ∧
    cellAt ⟨"Sheet1", rowMajor rows⟩ i c = some s ∧
    (cellAt ⟨"Sheet1", rowMajor rows⟩ i c).map String.length =
      some s.length := by
  have hne : rows ≠ [] := by
    intro hnil
    rw [hnil] at hi
    exact absurd hi (by simp)
  have h := cellAt_rowMajor rows i c hi hc
  rw [hs] at h
  exact ⟨script_main_mkDoc rows hne, h, by rw [h]; rfl⟩

theorem string_cells_pass_through_witness :
    0 < ([[JsonValue.str (String.mk (List.replicate 32767 'a'))]] :
      List (List JsonValue)).length ∧
    0 < ([[JsonValue.str (String.mk (List.replicate 32767 'a'))]] :
      List (List JsonValue))[0].length ∧
    ([[JsonValue.str (String.mk (List.replicate 32767 'a'))]] :
      List (List JsonValue))[0][0] =
      .str (String.mk (List.replicate 32767 'a')) ∧
    (String.mk (List.replicate 32767 'a')).length = 32767 ∧
    (script_main goodArgv
        (.ok (mkDoc [[JsonValue.str
          (String.mk (List.replicate 32767 'a'))]])) none =
      ⟨0, ["Generated XLS with " ++
          toString ([[JsonValue.str (String.mk (List.replicate 32767 'a'))]] :
            List (List JsonValue)).length ++ " rows"], [],
        some ⟨"Sheet1", rowMajor [[JsonValue.str
          (String.mk (List.replicate 32767 'a'))]]⟩, true⟩ ∧
    cellAt ⟨"Sheet1", rowMajor [[JsonValue.str
        (String.mk (List.replicate 32767 'a'))]]⟩ 0 0 =
      some (String.mk (List.replicate 32767 'a')) ∧
    (cellAt ⟨"Sheet1", rowMajor [[JsonValue.str
        (String.mk (List.replicate 32767 'a'))]]⟩ 0 0).map String.length =
      some (String.mk (List.replicate 32767 'a')).length) :=
  ⟨by decide, by decide, rfl,
    by rw [show (String.mk (List.replicate 32767 'a')).length =
        (List.replicate 32767 'a').length from rfl, List.length_replicate],
    string_cells_pass_through
      [[JsonValue.str (String.mk (List.replicate 32767 'a'))]]
      0 0 (by decide) (by decide) (String.mk (List.replicate 32767 'a')) rfl⟩

/-- C6: non-rectangular input is accepted: the run succeeds, and a cell
write exists exactly for the supplied positions — each row contributes
writes only up to its own length, with no padding and no error. -/
theorem ragged_rows_accepted (rows : List (List JsonValue))
    (h : rows ≠ []) :
    script_main goodArgv (.ok (mkDoc rows)) none =
      ⟨0, ["Generated XLS with " ++ toString rows.length ++ " rows"], [],
        some ⟨"Sheet1", rowMajor rows⟩, true⟩ ∧
    ∀ w : CellWrite, w ∈ rowMajor rows ↔
      ∃ i, ∃ _ : i < rows.length, ∃ c, ∃ _ : c < rows[i].length,
        w = ⟨i, c, cellToString rows[i][c]⟩ :=
  ⟨script_main_mkDoc rows h, fun w => mem_rowMajor rows w⟩

theorem ragged_rows_accepted_witness :
    ([[JsonValue.str "a", JsonValue.str "b"], [JsonValue.str "c"]] ≠
      ([] : List (List JsonValue))) ∧
    (script_main goodArgv
        (.ok (mkDoc [[JsonValue.str "a", JsonValue.str "b"],
          [JsonValue.str "c"]])) none =
      ⟨0, ["Generated XLS with " ++
          toString ([[JsonValue.str "a", JsonValue.str "b"],
            [JsonValue.str "c"]] : List (List JsonValue)).length ++
          " rows"], [],
        some ⟨"Sheet1", rowMajor [[JsonValue.str "a", JsonValue.str "b"],
          [JsonValue.str "c"]]⟩, true⟩ ∧
    ∀ w : CellWrite,
      w ∈ rowMajor [[JsonValue.str "a", JsonValue.str "b"],
        [JsonValue.str "c"]] ↔
      ∃ i, ∃ _ : i < ([[JsonValue.str "a", JsonValue.str "b"],
          [JsonValue.str "c"]] : List (List JsonValue)).length,
        ∃ c, ∃ _ : c < ([[JsonValue.str "a", JsonValue.str "b"],
          [JsonValue.str "c"]] : List (List JsonValue))[i].length,
          w = ⟨i, c, cellToString ([[JsonValue.str "a", JsonValue.str "b"],
            [JsonValue.str "c"]] : List (List JsonValue))[i][c]⟩) :=
  ⟨by simp, ragged_rows_accepted [[JsonValue.str "a", JsonValue.str "b"],
    [JsonValue.str "c"]] (by simp)⟩

/-- C10: a non-empty `rows` list whose rows are all empty succeeds: the
output workbook has the single sheet "Sheet1" with no cell writes, stdout
reports the row count, and the exit status is zero. -/
theorem all_empty_rows_succeed (rows : List (List JsonValue))
    (h : rows ≠ []) (hall : ∀ r ∈ rows, r = []) :
    script_main goodArgv (.ok (mkDoc rows)) none =
      ⟨0, ["Generated XLS with " ++ toString rows.length ++ " rows"], [],
        some ⟨"Sheet1", []⟩, true⟩ := by
  have hres := script_main_mkDoc rows h
  rw [rowMajor_all_nil rows hall] at hres
  exact hres

theorem all_empty_rows_succeed_witness :
    (([[]] : List (List JsonValue)) ≠ []) ∧
    (∀ r ∈ ([[]] : List (List JsonValue)), r = []) ∧
    script_main goodArgv (.ok (mkDoc [[]])) none =
      ⟨0, ["Generated XLS with 1 rows"], [], some ⟨"Sheet1", []⟩, true⟩ :=
  ⟨by simp, by simp, all_empty_rows_succeed [[]] (by simp) (by simp)⟩
